import Mathlib

/-!
Shallow embedding of `PAticAnimator.py` (class `PAticAnimator`), covering the
configuration-resolution state machine, the size/linewidth auto-derivation,
the grid builder, the complex-field colorbar tick labelling, `set_phi`,
`set_marker_density`, `reset_marker_settings`, `set_grouping`, `set_mode`,
`set_grid` and `preview`.

Modelling conventions:
* Python floats are modelled as exact rationals `ℚ` (the constants appearing
  in the source are all exactly representable).
* Python ints are `Int` (arbitrary precision), shapes are `ℕ`.
* Python attributes that may hold `None` are `Option _`; the attribute
  `complex_field`, which is only created by `_check_phi`, is an
  `Option Bool` where `none` means "attribute does not exist" (reading it
  raises `AttributeError`).
* A method that can raise is `AnimState → ... → Except (PyErr × AnimState) _`:
  the error constructor carries the state at the moment of the raise, so
  partial mutations that happened before the exception are observable,
  exactly as in Python.
* Matplotlib figures/axes and the drawing calls are external collaborators
  (out of scope per the spec); we track only whether the secondary axes
  object `ax2` exists, and `preview` returns the index of the frame that
  `_draw_frame` is asked to draw.
-/

namespace PAtic

/-- Python exception kinds raised by the animator. -/
inductive PyErr where
  | typeError
  | valueError
  | exception
  | attributeError
  | zeroDivisionError
  | indexError
  deriving DecidableEq

/-- A `{'patch': _, 'point': _, 'tick': _}` dictionary from the source. -/
structure MarkerTriple (α : Type) where
  patch : α
  point : α
  tick : α
  deriving DecidableEq

/-- Shape and dtype of a 3D numpy array `(nt, ny, nx)`; the phase-field
values themselves are irrelevant to the configuration machinery. -/
structure NpArray3 where
  nt : ℕ
  ny : ℕ
  nx : ℕ
  isComplex : Bool
  deriving DecidableEq

/-- Argument passed to `set_phi` / `_check_phi`: either not a numpy array
at all, or an array of some shape and dtype. -/
inductive PhiInput where
  | notArray
  | array (shape : List ℕ) (isComplex : Bool)
  deriving DecidableEq

/-- A numeric argument as Python sees it after `float(...)`: either it
coerces to a number or it does not. -/
inductive NumInput where
  | num (q : ℚ)
  | notNum
  deriving DecidableEq

/-- The mutable attribute state of one `PAticAnimator` instance. -/
@[ext] structure AnimState where
  p : ℕ
  which : String
  grouping : String
  mode : Int
  markerType : String
  markerSize : ℚ
  markerColors : MarkerTriple String
  markerLinewidths : MarkerTriple ℚ
  markerTransparencies : MarkerTriple ℚ
  pfTransparency : ℚ
  colormap : String
  markerDensityX : ℚ
  markerDensityY : ℚ
  slcX : Int
  slcY : Int
  field : Option NpArray3
  nx : Option ℕ
  ny : Option ℕ
  nt : Option ℕ
  x0 : Option ℚ
  x1 : Option ℚ
  y0 : Option ℚ
  y1 : Option ℚ
  gridX : Option (List (List ℚ))
  gridY : Option (List (List ℚ))
  complexField : Option Bool
  ax2 : Bool
  deriving DecidableEq

/-- Python `int(q)`: truncation toward zero. -/
def pyInt (q : ℚ) : Int := if 0 ≤ q then ⌊q⌋ else -⌊-q⌋

/-- Python `a // b` on integers (floor division); `none` models
`ZeroDivisionError`. -/
def pyFloorDivNat (a : ℕ) (b : Int) : Option Int :=
  if b = 0 then none else some (Int.fdiv a b)

/-- Python `str.lower()`. -/
def pyLower (s : String) : String := ⟨s.data.map Char.toLower⟩

/-- Embeds `np.linspace a b n`. -/
def linspace (a b : ℚ) (n : ℕ) : List ℚ :=
  if n = 1 then [a]
  else (List.range n).map (fun i : ℕ => a + (b - a) * (i : ℚ) / ((n - 1 : ℕ) : ℚ))

/-- Attribute state produced by `__init__` before the `field`/`x`/`y`
keyword arguments are processed (the `field=None, x=None, y=None` result). -/
def defaultState (p : ℕ) : AnimState where
  p := p
  which := "pf"
  grouping := "together"
  mode := 0
  markerType := "all"
  markerSize := 500
  markerColors := ⟨"k", "k", "r"⟩
  markerLinewidths := ⟨0, 1/5, 1/2⟩
  markerTransparencies := ⟨1/2, 1, 1⟩
  pfTransparency := 1
  colormap := "twilight"
  markerDensityX := 1/10
  markerDensityY := 1/10
  slcX := 1
  slcY := 1
  field := none
  nx := none
  ny := none
  nt := none
  x0 := none
  x1 := none
  y0 := none
  y1 := none
  gridX := none
  gridY := none
  complexField := none
  ax2 := false

/-- Embeds `__init__` with `field=None` (and any or no coordinate arguments: those
only fill the scalar limits and never create `complex_field`); fails when
`p < 1`. -/
def animInitNoField (p : ℕ) : Except PyErr AnimState :=
  if p < 1 then .error .valueError else .ok (defaultState p)

/-- The size/linewidth bucket table of `_set_marker_size`, as a function of
the degree `p`, the glyph count `N`, and the current size and point/tick
linewidths (returned unchanged where the source leaves them untouched).
Result: `(marker_size, linewidths['point'], linewidths['tick'])`. -/
def markerSizeTable (p : ℕ) (N : Int) (size plw tlw : ℚ) : ℚ × ℚ × ℚ :=
  if 10 ≤ N ∧ N ≤ 60 then
    if 10 ≤ N ∧ N < 20 then
      if 3 ≤ p then (140, plw, tlw) else (140, 7/4, 7/4)
    else if 20 ≤ N ∧ N < 30 then
      if 3 ≤ p then (100, plw, tlw) else (140, 1, 1)
    else if 30 ≤ N ∧ N < 40 then
      if 3 ≤ p then (60, plw, tlw) else (60, 17/20, 17/20)
    else if 40 ≤ N ∧ N < 50 then
      if 3 ≤ p then (30, plw, tlw) else (45, 17/20, 17/20)
    else if 50 ≤ N ∧ N ≤ 60 then
      if 3 ≤ p then (20, plw, tlw) else (30, 17/20, 17/20)
    else (size, plw, tlw)
  else if N < 10 then
    -- `N = 10` clamp branch of the source
    if 3 ≤ p then (140, plw, tlw) else (140, 7/4, 7/4)
  else
    -- `N > 60`
    if 3 ≤ p then (20, plw, tlw) else (30, 17/20, 17/20)

/-- The glyph count `N` of `_set_marker_size`: `nmax = np.max([nx, ny])`,
then `N = int(density_x * nmax)` when `nx >= ny` else
`int(density_y * nmax)`. -/
def autoN (s : AnimState) (nx ny : ℕ) : Int :=
  if ny ≤ nx then pyInt (s.markerDensityX * ((max nx ny : ℕ) : ℚ))
  else pyInt (s.markerDensityY * ((max nx ny : ℕ) : ℚ))

/-- Embeds `_set_marker_size` given the (already known) grid extents `nx`, `ny`:
the bucket table updates `marker_size` and, for `p < 3`, the point/tick
linewidths. -/
def set_marker_size_auto (s : AnimState) (nx ny : ℕ) : AnimState :=
  let r := markerSizeTable s.p (autoN s nx ny) s.markerSize
    s.markerLinewidths.point s.markerLinewidths.tick
  { s with markerSize := r.1,
           markerLinewidths := { s.markerLinewidths with point := r.2.1, tick := r.2.2 } }

/-- Embeds `_set_marker_size` reading the extents from the state; `np.max` over
`[None, ...]` raises `TypeError`. -/
def _set_marker_size (s : AnimState) : Except (PyErr × AnimState) AnimState :=
  match s.nx, s.ny with
  | some nx, some ny => .ok (set_marker_size_auto s nx ny)
  | _, _ => .error (.typeError, s)

/-- Embeds `set_mode`: validates the mode, stores it, and (when `which='both'`)
applies the cascade rules for `grouping='together'` with mode 1 or 2, or for
`grouping='separate'`. -/
def set_mode (s : AnimState) (mode : Int) : Except (PyErr × AnimState) AnimState :=
  if ¬(mode = 0 ∨ mode = 1 ∨ mode = 2) then .error (.valueError, s)
  else
    let s1 := { s with mode := mode }
    if s1.which = "both" then
      if s1.grouping = "together" ∧ (s1.mode = 1 ∨ s1.mode = 2) then
        if s1.p = 2 then
          .ok { s1 with markerType := "point", pfTransparency := 1/4 }
        else
          .ok { s1 with markerType := "patch",
                        markerTransparencies := { s1.markerTransparencies with patch := 1 },
                        pfTransparency := 1/4 }
      else if s1.grouping = "separate" then
        .ok { s1 with markerType := "all",
                      markerTransparencies := { s1.markerTransparencies with patch := 1/2 },
                      pfTransparency := 1 }
      else .ok s1
    else .ok s1

/-- A concrete animator configuration used to witness the `set_mode`
cascade: `which='both'`, `grouping='together'`, `p=3`, mode 0, with an
explicitly customised marker type and patch transparency that the mode
switch must override. -/
def modeDemoState : AnimState :=
  { defaultState 3 with
      which := "both"
      grouping := "together"
      markerType := "tick"
      markerTransparencies := ⟨7/10, 1, 1⟩
      pfTransparency := 1/2
      complexField := some false }

/-- Animator with half-density: with extents `nx=20`, `ny=10` it produces
`N = ⌊0.5·20⌋ = 10` along the wider axis. -/
def sizeDemoState : AnimState :=
  { defaultState 3 with markerDensityX := 1/2, markerDensityY := 1/2 }

/-- Embeds `np.min` over a nonempty list of values. -/
def listMin (c : List ℚ) : ℚ := c.foldl min (c.headD 0)

/-- Embeds `np.max` over a nonempty list of values. -/
def listMax (c : List ℚ) : ℚ := c.foldl max (c.headD 0)

/-- A coordinate argument as classified by `_check_coordinate`: a 2-element
tuple/list of numbers, a malformed tuple/list, a 1D or (rectangular) 2D
numpy array, an array of more than 2 dimensions, or something else. -/
inductive CoordInput where
  | pair (a b : ℚ)
  | badPair
  | arr1 (xs : List ℚ)
  | arr2 (xss : List (List ℚ))
  | badArr
  | notSeq
  deriving DecidableEq

/-- The numeric values carried by a coordinate argument. -/
def coordValues : CoordInput → List ℚ
  | .pair a b => [a, b]
  | .arr1 xs => xs
  | .arr2 xss => xss.flatten
  | _ => []

/-- Embeds `_check_coordinate`: `none` means the input passes validation. -/
def _check_coordinate (s : AnimState) (c : CoordInput) : Option PyErr :=
  match c with
  | .pair a b => if b ≤ a then some .valueError else none
  | .badPair => some .valueError
  | .arr1 _ => none
  | .arr2 xss =>
    match s.field with
    | some f =>
      if ¬(xss.length = f.ny ∧ (xss.headD []).length = f.nx) then some .exception
      else none
    | none => none
  | .badArr => some .exception
  | .notSeq => some .typeError

/-- Embeds `_set_grid_from_coordinate`: extracts min/max of the supplied values and
synthesizes a uniform mesh via `np.linspace` (+ `np.tile`/`np.meshgrid`);
requires `nx`/`ny` (raises `TypeError` on `None` extents, as `np.linspace`
would). -/
def _set_grid_from_coordinate (s : AnimState) (c : List ℚ) (w : String) :
    Except (PyErr × AnimState) AnimState :=
  if w = "x" then
    match s.nx, s.ny with
    | some nx, some ny =>
      .ok { s with x0 := some (listMin c), x1 := some (listMax c),
                   gridX := some (List.replicate ny (linspace (listMin c) (listMax c) nx)) }
    | _, _ => .error (.typeError, s)
  else if w = "y" then
    match s.nx, s.ny with
    | some nx, some ny =>
      .ok { s with y0 := some (listMin c), y1 := some (listMax c),
                   gridY := some ((linspace (listMin c) (listMax c) ny).map
                     (fun v => List.replicate nx v)) }
    | _, _ => .error (.typeError, s)
  else if w = "both" then
    match s.nx, s.ny with
    | some nx, some ny =>
      .ok { s with x0 := some (listMin c), x1 := some (listMax c),
                   y0 := some (listMin c), y1 := some (listMax c),
                   gridX := some (List.replicate ny (linspace (listMin c) (listMax c) nx)),
                   gridY := some ((linspace (listMin c) (listMax c) ny).map
                     (fun v => List.replicate nx v)) }
    | _, _ => .error (.typeError, s)
  else .ok s

/-- Embeds `_set_default_grid`: the unit square `[0,1]×[0,1]`. -/
def _set_default_grid (s : AnimState) : Except (PyErr × AnimState) AnimState :=
  match s.nx, s.ny with
  | some nx, some ny =>
    .ok { s with x0 := some 0, x1 := some 1, y0 := some 0, y1 := some 1,
                 gridX := some (List.replicate ny (linspace 0 1 nx)),
                 gridY := some ((linspace 0 1 ny).map (fun v => List.replicate nx v)) }
  | _, _ => .error (.typeError, s)

/-- Embeds `set_grid`: validates `which` and the coordinate input, stores the
min/max as the axis limits, and — when a field is present — rebuilds the
mesh through `_set_grid_from_coordinate` (for `'x'`/`'y'` the source passes
the already-extracted pair `[x0, x1]`; for `'both'` it passes `c` itself,
of which only min/max are ever used). -/
def set_grid (s : AnimState) (c : CoordInput) (which : String) :
    Except (PyErr × AnimState) AnimState :=
  if ¬(pyLower which = "x" ∨ pyLower which = "y" ∨ pyLower which = "both") then
    .error (.valueError, s)
  else
    match _check_coordinate s c with
    | some e => .error (e, s)
    | none =>
      if which = "x" then
        let s1 := { s with x0 := some (listMin (coordValues c)),
                           x1 := some (listMax (coordValues c)) }
        if s1.field ≠ none then
          _set_grid_from_coordinate s1 [listMin (coordValues c), listMax (coordValues c)] "x"
        else .ok s1
      else if which = "y" then
        let s1 := { s with y0 := some (listMin (coordValues c)),
                           y1 := some (listMax (coordValues c)) }
        if s1.field ≠ none then
          _set_grid_from_coordinate s1 [listMin (coordValues c), listMax (coordValues c)] "y"
        else .ok s1
      else if which = "both" then
        let s1 := { s with x0 := some (listMin (coordValues c)),
                           x1 := some (listMax (coordValues c)),
                           y0 := some (listMin (coordValues c)),
                           y1 := some (listMax (coordValues c)) }
        if s1.field ≠ none then
          _set_grid_from_coordinate s1 (coordValues c) "both"
        else .ok s1
      else .ok s

/-- Embeds `__init__` with a `field` argument and `x=None`, `y=None`: validates
`p`, runs `_check_phi`, records the shape, computes the subsampling
strides, builds the default grid and runs `_set_marker_size`.  A failed
`__init__` produces no object, hence plain `Except PyErr`. -/
def animInitField (p : ℕ) (f : NpArray3) : Except PyErr AnimState :=
  if p < 1 then .error .valueError
  else
    let s0 := { defaultState p with
      complexField := some f.isComplex,
      nx := some f.nx, ny := some f.ny, nt := some f.nt, field := some f }
    match pyFloorDivNat f.nx (pyInt (s0.markerDensityX * (f.nx : ℚ))) with
    | none => .error .zeroDivisionError
    | some sx =>
      match pyFloorDivNat f.ny (pyInt (s0.markerDensityY * (f.ny : ℚ))) with
      | none => .error .zeroDivisionError
      | some sy =>
        match _set_default_grid { s0 with slcX := sx, slcY := sy } with
        | .error e => .error e.1
        | .ok s2 =>
          match _set_marker_size s2 with
          | .error e => .error e.1
          | .ok s3 => .ok s3

/-- Embeds `_check_phi`: type/shape validation; on success it (re)creates the
`complex_field` attribute from the dtype. -/
def _check_phi (s : AnimState) (data : PhiInput) : Except (PyErr × AnimState) AnimState :=
  match data with
  | .notArray => .error (.typeError, s)
  | .array shape isC =>
    if shape.length ≠ 3 then .error (.exception, s)
    else .ok { s with complexField := some isC }

/-- The grid-reconstruction tail of `set_phi` (lines following the stride
computation): rebuild meshes from whatever limits are already present. -/
def set_phi_grid (s : AnimState) : Except (PyErr × AnimState) AnimState :=
  if s.gridX = none ∧ s.gridY = none then
    if s.x0 = none ∧ s.x1 = none ∧ s.y0 = none ∧ s.y1 = none then
      match _set_default_grid s with
      | .error e => .error e
      | .ok t => _set_marker_size t
    else if s.x0 ≠ none ∧ s.x1 ≠ none ∧ s.y0 = none ∧ s.y1 = none then
      _set_grid_from_coordinate s [s.x0.getD 0, s.x1.getD 0] "x"
    else if s.x0 = none ∧ s.x1 = none ∧ s.y0 ≠ none ∧ s.y1 ≠ none then
      _set_grid_from_coordinate s [s.y0.getD 0, s.y1.getD 0] "y"
    else if s.x0 ≠ none ∧ s.x1 ≠ none ∧ s.y0 ≠ none ∧ s.y1 ≠ none then
      match _set_grid_from_coordinate s [s.x0.getD 0, s.x1.getD 0] "x" with
      | .error e => .error e
      | .ok t =>
        match _set_grid_from_coordinate t [t.y0.getD 0, t.y1.getD 0] "y" with
        | .error e => .error e
        | .ok u => _set_marker_size u
    else .ok s
  else if s.gridX ≠ none ∧ s.gridY = none then
    if s.y0 ≠ none ∧ s.y1 ≠ none then
      match _set_grid_from_coordinate s [s.y0.getD 0, s.y1.getD 0] "y" with
      | .error e => .error e
      | .ok t => _set_marker_size t
    else .ok s
  else if s.gridX = none ∧ s.gridY ≠ none then
    if s.x0 ≠ none ∧ s.x1 ≠ none then
      match _set_grid_from_coordinate s [s.x0.getD 0, s.x1.getD 0] "x" with
      | .error e => .error e
      | .ok t => _set_marker_size t
    else .ok s
  else
    match _set_grid_from_coordinate s [s.x0.getD 0, s.x1.getD 0] "x" with
    | .error e => .error e
    | .ok t =>
      match _set_grid_from_coordinate t [t.y0.getD 0, t.y1.getD 0] "y" with
      | .error e => .error e
      | .ok u => _set_marker_size u

/-- Embeds `set_phi`: `_check_phi`, then — in this order — assignment of `field`,
`nx`, `ny`, `nt`, then the stride computations
`self.nx // int(self.marker_density_x * self.nx)` (which can raise
`ZeroDivisionError` *after* the preceding assignments), then the grid
reconstruction. -/
def set_phi (s : AnimState) (data : PhiInput) : Except (PyErr × AnimState) AnimState :=
  match _check_phi s data with
  | .error e => .error e
  | .ok s0 =>
    match data with
    | .array [nt, ny, nx] isC =>
      let s1 := { s0 with field := some ⟨nt, ny, nx, isC⟩,
                          nx := some nx, ny := some ny, nt := some nt }
      match pyFloorDivNat nx (pyInt (s1.markerDensityX * (nx : ℚ))) with
      | none => .error (.zeroDivisionError, s1)
      | some sx =>
        let s2 := { s1 with slcX := sx }
        match pyFloorDivNat ny (pyInt (s2.markerDensityY * (ny : ℚ))) with
        | none => .error (.zeroDivisionError, s2)
        | some sy => set_phi_grid { s2 with slcY := sy }
    | _ => .error (.exception, s0)

/-- Resolution of the index `i` in `self.field[i,:,:]` inside `_draw_frame`
(Python sequence indexing, negative indices wrap). -/
def _draw_frame_index (nt : ℕ) (i : Int) : Except PyErr ℕ :=
  if 0 ≤ i then (if i < (nt : Int) then .ok i.toNat else .error .indexError)
  else if 0 ≤ i + (nt : Int) then .ok (i + (nt : Int)).toNat
  else .error .indexError

/-- Embeds `preview`: fails without a field or without a fully defined grid,
otherwise initializes the plot and draws one frame, clamping an integer
`frame ≥ nt` to `nt - 1`.  The drawing itself is an external collaborator;
the returned value is the frame index handed to `_draw_frame`. -/
def preview (s : AnimState) (frame : Option Int) : Except (PyErr × AnimState) ℕ :=
  match s.field with
  | none => .error (.exception, s)
  | some _ =>
    if s.gridX = none ∨ s.gridY = none then .error (.exception, s)
    else
      match s.nt with
      | none => .error (.typeError, s)
      | some nt =>
        let i : Int := match frame with
          | some fr => if (nt : Int) ≤ fr then (nt : Int) - 1 else fr
          | none => 0
        match _draw_frame_index nt i with
        | .ok k => .ok k
        | .error e => .error (e, s)

/-- Colorbar tick positions of the complex-field pipeline:
`np.linspace(np.min(thetas), np.max(thetas), 9)`, with the data-dependent
extremes of `θ = np.angle(field)/p` abstracted as `lo`, `hi`. -/
def colorbarTicks (lo hi : ℚ) : List ℚ := linspace lo hi 9

/-- One colorbar tick label from `_initialize_plot`/`_draw_frame`:
`n = |8 - 2i|`, `d = 4p`, reduced by `np.gcd`, rendered as a signed
(LaTeX) fraction of π; the center tick `i = 4` is `'$0$'`. -/
def tickLabel (p i : ℕ) : String :=
  let n : ℕ := (8 - 2 * (i : Int)).natAbs
  let d : ℕ := 4 * p
  let nr : ℕ := n / Nat.gcd n d
  let dr : ℕ := d / Nat.gcd n d
  if i < 4 then
    if nr = 1 ∧ dr = 1 then ("$-\\pi$")
    else if nr = 1 then ("$-\\frac\x7b\\pi\x7d\x7b") ++ toString dr ++ "\x7d$"
    else if dr = 1 then ("$-") ++ toString nr ++ "\\pi$"
    else ("$-\\frac\x7b") ++ toString nr ++ "\\pi\x7d\x7b" ++ toString dr ++ "\x7d$"
  else if i = 4 then ("$0$")
  else
    if nr = 1 ∧ dr = 1 then ("$\\pi$")
    else if nr = 1 then ("$\\frac\x7b\\pi\x7d\x7b") ++ toString dr ++ "\x7d$"
    else if dr = 1 then ("$") ++ toString nr ++ "\\pi$"
    else ("$\\frac\x7b") ++ toString nr ++ "\\pi\x7d\x7b" ++ toString dr ++ "\x7d$"

/-- Embeds `set_grouping`: validates the value, then reads `self.complex_field`
(raising `AttributeError` when the attribute was never created), and — for
a real field with `which='both'` — restructures the axes and applies the
cascade rules before finally recording the grouping.  For a complex field
or `which ≠ 'both'` only the grouping attribute is recorded. -/
def set_grouping (s : AnimState) (grouping : String) : Except (PyErr × AnimState) AnimState :=
  if ¬(pyLower grouping = "separate" ∨ pyLower grouping = "together") then
    .error (.valueError, s)
  else
    match s.complexField with
    | none => .error (.attributeError, s)
    | some cf =>
      if cf = true then .ok { s with grouping := pyLower grouping }
      else if s.which = "both" then
        let gl := pyLower grouping
        let ax : Except (PyErr × AnimState) AnimState :=
          if s.grouping ≠ gl ∧ gl = "separate" then .ok { s with ax2 := true }
          else if s.grouping ≠ gl ∧ gl = "together" then
            (if s.ax2 then .ok { s with ax2 := false }
             else .error (.attributeError, s))
          else .ok s
        match ax with
        | .error e => .error e
        | .ok t =>
          if gl = "together" ∧ (t.mode = 1 ∨ t.mode = 2) then
            if t.p = 2 then
              .ok { t with markerType := "point", pfTransparency := 1/4, grouping := gl }
            else
              .ok { t with markerType := "patch",
                           markerTransparencies := { t.markerTransparencies with patch := 1 },
                           pfTransparency := 1/4, grouping := gl }
          else if gl = "separate" then
            .ok { t with markerType := "all",
                         markerTransparencies := { t.markerTransparencies with patch := 1/2 },
                         pfTransparency := 1, grouping := gl }
          else .ok { t with grouping := gl }
      else .ok { s with grouping := pyLower grouping }

/-- The `_marker_types` tuple. -/
def _marker_types : List String :=
  ["patch", "point", "tick", "patch & point", "patch & tick", "point & tick", "all"]

/-- Embeds `set_marker_type`. -/
def set_marker_type (s : AnimState) (markerType : String) : Except (PyErr × AnimState) AnimState :=
  if pyLower markerType ∈ _marker_types then .ok { s with markerType := pyLower markerType }
  else .error (.valueError, s)

/-- Embeds `set_pf_transparency`: coerces to float, clamps into `[0,1]`. -/
def set_pf_transparency (s : AnimState) (alpha : NumInput) : Except (PyErr × AnimState) AnimState :=
  match alpha with
  | .notNum => .error (.typeError, s)
  | .num a =>
    if 1 < a then .ok { s with pfTransparency := 1 }
    else if a < 0 then .ok { s with pfTransparency := 0 }
    else .ok { s with pfTransparency := a }

/-- Embeds `set_marker_density`: validates direction, coerces the density, rejects
negatives, silently clamps values above 1 to 1, then updates density,
stride and (with a full grid) the auto-derived sizes for the requested
direction(s).  The stride `nx // int(density*nx)` can raise
`ZeroDivisionError` after the density attribute was already updated. -/
def set_marker_density (s : AnimState) (density : NumInput) (direction : String) :
    Except (PyErr × AnimState) AnimState :=
  if ¬(direction = "x" ∨ direction = "y" ∨ direction = "both") then .error (.valueError, s)
  else
    match density with
    | .notNum => .error (.typeError, s)
    | .num d0 =>
      if d0 < 0 then .error (.valueError, s)
      else
        let d := if 1 < d0 then 1 else d0
        if direction = "x" then
          if s.gridX ≠ none then
            let s1 := { s with markerDensityX := d }
            match s1.nx with
            | none => .error (.typeError, s1)
            | some nx =>
              match pyFloorDivNat nx (pyInt (s1.markerDensityX * (nx : ℚ))) with
              | none => .error (.zeroDivisionError, s1)
              | some sl =>
                let s2 := { s1 with slcX := sl }
                if s2.gridX ≠ none ∧ s2.gridY ≠ none then _set_marker_size s2 else .ok s2
          else .ok s
        else if direction = "y" then
          if s.gridY ≠ none then
            let s1 := { s with markerDensityY := d }
            match s1.ny with
            | none => .error (.typeError, s1)
            | some ny =>
              match pyFloorDivNat ny (pyInt (s1.markerDensityY * (ny : ℚ))) with
              | none => .error (.zeroDivisionError, s1)
              | some sl =>
                let s2 := { s1 with slcY := sl }
                if s2.gridX ≠ none ∧ s2.gridY ≠ none then _set_marker_size s2 else .ok s2
          else .ok s
        else
          if s.gridX ≠ none ∧ s.gridY = none then
            let s1 := { s with markerDensityX := d }
            match s1.nx with
            | none => .error (.typeError, s1)
            | some nx =>
              match pyFloorDivNat nx (pyInt (s1.markerDensityX * (nx : ℚ))) with
              | none => .error (.zeroDivisionError, s1)
              | some sl => .ok { s1 with slcX := sl }
          else if s.gridX = none ∧ s.gridY ≠ none then
            let s1 := { s with markerDensityY := d }
            match s1.ny with
            | none => .error (.typeError, s1)
            | some ny =>
              match pyFloorDivNat ny (pyInt (s1.markerDensityY * (ny : ℚ))) with
              | none => .error (.zeroDivisionError, s1)
              | some sl => .ok { s1 with slcY := sl }
          else if s.gridX ≠ none ∧ s.gridY ≠ none then
            let s1 := { s with markerDensityX := d, markerDensityY := d }
            match s1.nx with
            | none => .error (.typeError, s1)
            | some nx =>
              match pyFloorDivNat nx (pyInt (s1.markerDensityX * (nx : ℚ))) with
              | none => .error (.zeroDivisionError, s1)
              | some sx =>
                let s2 := { s1 with slcX := sx }
                match s2.ny with
                | none => .error (.typeError, s2)
                | some ny =>
                  match pyFloorDivNat ny (pyInt (s2.markerDensityY * (ny : ℚ))) with
                  | none => .error (.zeroDivisionError, s2)
                  | some sy => _set_marker_size { s2 with slcY := sy }
          else .ok s

/-- The state produced by a successful `reset_marker_settings` given the
extents `nx = a`, `ny = b`: `_set_marker_size` first, then the default
linewidths, then the configuration-dependent defaults for marker type,
patch transparency and colors. -/
def resetPure (s : AnimState) (a b : ℕ) : AnimState :=
  let t := set_marker_size_auto s a b
  let t2 := { t with markerLinewidths := ⟨0, 1/5, 1/2⟩ }
  if t2.which = "op" ∨ (t2.which = "both" ∧ t2.grouping = "separate")
      ∨ (t2.which = "both" ∧ t2.grouping = "together" ∧ t2.mode = 0) then
    { t2 with markerType := "all",
              markerTransparencies := { t2.markerTransparencies with patch := 1/2 },
              markerColors := ⟨"k", "k", "r"⟩ }
  else if t2.which = "both" ∧ (t2.mode = 1 ∨ t2.mode = 2) then
    { t2 with markerType := "patch" }
  else t2

/-- Embeds `reset_marker_settings` (its first step `_set_marker_size` raises
`TypeError` when the extents are undefined, before any mutation). -/
def reset_marker_settings (s : AnimState) : Except (PyErr × AnimState) AnimState :=
  match s.nx, s.ny with
  | some a, some b => .ok (resetPure s a b)
  | _, _ => .error (.typeError, s)

/-- A 3-atic animator initialised with a real field of shape `(5,20,20)`
and default options (the end-to-end configuration of the spec's test
properties). -/
def demoState : AnimState :=
  match animInitField 3 ⟨5, 20, 20, false⟩ with
  | .ok s => s
  | .error _ => defaultState 3

/-- A 20×20 coordinate array whose shape matches `demoState`'s field but
whose rows differ (row 0 is all zeros, row 1 all ones): no mesh of the form
`np.tile(..., (20,1))`/`np.meshgrid(...)` — whose rows are all equal — can
reproduce its point values. -/
def nonUniformArr : List (List ℚ) :=
  List.replicate 20 (0 : ℚ) :: List.replicate 20 (1 : ℚ)
    :: List.replicate 18 (List.replicate 20 (0 : ℚ))

/-- State `demoState` after `set_marker_type('patch')`. -/
def cexState0 : AnimState :=
  match set_marker_type demoState ("patch") with
  | .ok s => s
  | .error _ => demoState

/-- State `cexState0` after `set_pf_transparency(0.5)`. -/
def cexState1 : AnimState :=
  match set_pf_transparency cexState0 (.num (1/2)) with
  | .ok s => s
  | .error _ => cexState0

/-- State `demoState` after one `reset_marker_settings` (its extents are
`nx = ny = 20`). -/
def resetOnce : AnimState := resetPure demoState 20 20

/-- A real-field animator showing both layers in shared axes with
compositing mode 2 (so the `set_grouping('separate')` cascade has prior
mode-2 forcing to undo). -/
def groupingDemoState : AnimState :=
  { demoState with which := "both", mode := 2 }

/-- C1: with `which='both'` and `grouping='together'`, `set_mode(1)` or
`set_mode(2)` succeeds and forces `marker_type` to `'point'` if `p=2` and to
`'patch'` otherwise, forces the patch transparency to 1.0 whenever the
marker type became `'patch'`, and forces `pf_transparency` to 0.25 — for
every prior marker type and transparency values. -/
theorem set_mode_forces_defaults (s : AnimState) (m : Int)
    (hw : s.which = "both") (hg : s.grouping = "together")
    (hm : m = 1 ∨ m = 2) :
    ∃ s', set_mode s m = .ok s'
      ∧ s'.markerType = (if s.p = 2 then ("point") else ("patch"))
      ∧ (s.p ≠ 2 → s'.markerTransparencies.patch = 1)
      ∧ s'.pfTransparency = 1/4
      ∧ s'.mode = m := by
  rcases hm with hm | hm <;> subst hm <;>
    by_cases hp : s.p = 2 <;>
      simp [set_mode, hw, hg, hp]

/-- Witness for C1: switching mode 0 → 1 with `p=3`, `which='both'`,
`grouping='together'` yields `marker_type='patch'`, patch transparency 1.0
and `pf_transparency=0.25` despite the previously customised values. -/
theorem set_mode_forces_defaults_witness :
    ∃ s', set_mode modeDemoState 1 = .ok s'
      ∧ s'.markerType = (if modeDemoState.p = 2 then ("point") else ("patch"))
      ∧ (modeDemoState.p ≠ 2 → s'.markerTransparencies.patch = 1)
      ∧ s'.pfTransparency = 1/4
      ∧ s'.mode = 1 :=
  set_mode_forces_defaults modeDemoState 1 rfl rfl (Or.inl rfl)

theorem pyInt_of_nonneg (q : ℚ) (h : 0 ≤ q) : pyInt q = ⌊q⌋ := by
  simp [pyInt, h]

theorem linspace_getD (a b : ℚ) (n i : ℕ) (h1 : n ≠ 1) (hi : i < n) :
    (linspace a b n).getD i 0 = a + (b - a) * i / ((n - 1 : ℕ) : ℚ) := by
  unfold linspace
  rw [if_neg h1]
  have hlen : i < ((List.range n).map
      (fun j : ℕ => a + (b - a) * (j : ℚ) / ((n - 1 : ℕ) : ℚ))).length := by
    simpa using hi
  rw [List.getD_eq_getElem _ _ hlen, List.getElem_map, List.getElem_range]

theorem pyInt_two : pyInt (2 : ℚ) = 2 := by
  unfold pyInt
  rw [if_pos (by norm_num)]
  norm_num

theorem pyInt_half : pyInt ((1:ℚ)/2) = 0 := by
  unfold pyInt
  rw [if_pos (by norm_num)]
  norm_num

/-- Concrete value of `demoState`: `__init__` on the `(5,20,20)` real field
yields strides 10, the default unit-square mesh and auto marker size 140. -/
theorem demoState_eq :
    demoState = { defaultState 3 with
      complexField := some false,
      field := some ⟨5, 20, 20, false⟩,
      nx := some 20, ny := some 20, nt := some 5,
      slcX := 10, slcY := 10,
      x0 := some 0, x1 := some 1, y0 := some 0, y1 := some 1,
      gridX := some (List.replicate 20 (linspace 0 1 20)),
      gridY := some ((linspace 0 1 20).map (fun v => List.replicate 20 v)),
      markerSize := 140 } := by
  have hfd1 : Int.fdiv ((20:ℕ) : ℤ) 2 = 10 := rfl
  have hfd2 : Int.fdiv (20 : ℤ) 2 = 10 := rfl
  unfold demoState animInitField _set_default_grid _set_marker_size set_marker_size_auto
  norm_num [defaultState, pyFloorDivNat, pyInt_two, hfd1, hfd2, autoN, markerSizeTable]

/-- Concrete value of `cexState1`: `demoState` with `marker_type='patch'`
and `pf_transparency=0.5`. -/
theorem cexState1_eq :
    cexState1 = { demoState with markerType := "patch", pfTransparency := 1/2 } := by
  have h0 : cexState0 = { demoState with markerType := "patch" } := rfl
  unfold cexState1 set_pf_transparency
  rw [h0]
  norm_num

theorem markerSizeTable_le_ten (p : ℕ) (N : Int) (size plw tlw : ℚ) (h : N ≤ 10) :
    (markerSizeTable p N size plw tlw).1 = 140
    ∧ (p < 3 → (markerSizeTable p N size plw tlw).2.1 = 7/4
        ∧ (markerSizeTable p N size plw tlw).2.2 = 7/4) := by
  unfold markerSizeTable
  split_ifs <;> refine ⟨by first | rfl | omega, fun hp => ⟨?_, ?_⟩⟩ <;>
    first | rfl | omega

theorem markerSizeTable_sixty_five (p : ℕ) (size plw tlw : ℚ) :
    (3 ≤ p → (markerSizeTable p 65 size plw tlw).1 = 20)
    ∧ (p < 3 → (markerSizeTable p 65 size plw tlw).1 = 30
        ∧ (markerSizeTable p 65 size plw tlw).2.1 = 17/20
        ∧ (markerSizeTable p 65 size plw tlw).2.2 = 17/20) := by
  unfold markerSizeTable
  split_ifs <;> refine ⟨fun h3 => by first | rfl | omega, fun hp => ?_⟩ <;>
    first | exact ⟨rfl, rfl, rfl⟩ | omega

/-- C4: the auto-derivation computes `N = ⌊density · max(nx,ny)⌋` using the
density of the axis achieving the maximum (x wins ties), clamps `N` below at
10, and at `N ≤ 10` yields size 140 (with point/tick linewidth 1.75 when
`p < 3`), while `N = 65` (a value above the last bucket boundary) yields
size 20 for `p ≥ 3` and linewidth 0.85 with size 30 for `p < 3`. -/
theorem marker_size_buckets (s : AnimState) (nx ny : ℕ)
    (hdx : 0 ≤ s.markerDensityX) (hdy : 0 ≤ s.markerDensityY) :
    let N : Int :=
      if ny ≤ nx then ⌊s.markerDensityX * ((max nx ny : ℕ) : ℚ)⌋
      else ⌊s.markerDensityY * ((max nx ny : ℕ) : ℚ)⌋
    let t := set_marker_size_auto s nx ny
    (N ≤ 10 →
      t.markerSize = 140
      ∧ (s.p < 3 → t.markerLinewidths.point = 7/4 ∧ t.markerLinewidths.tick = 7/4))
    ∧ (N = 65 →
      (3 ≤ s.p → t.markerSize = 20)
      ∧ (s.p < 3 → t.markerSize = 30
          ∧ t.markerLinewidths.point = 17/20 ∧ t.markerLinewidths.tick = 17/20)) := by
  intro N t
  have hN : autoN s nx ny = N := by
    unfold autoN
    show _ = if ny ≤ nx then ⌊s.markerDensityX * ((max nx ny : ℕ) : ℚ)⌋
       else ⌊s.markerDensityY * ((max nx ny : ℕ) : ℚ)⌋
    split <;> rw [pyInt_of_nonneg]
    · exact mul_nonneg hdx (by positivity)
    · exact mul_nonneg hdy (by positivity)
  have hsize : t.markerSize
      = (markerSizeTable s.p N s.markerSize s.markerLinewidths.point s.markerLinewidths.tick).1 := by
    show (set_marker_size_auto s nx ny).markerSize = _
    simp only [set_marker_size_auto]
    rw [hN]
  have hpoint : t.markerLinewidths.point
      = (markerSizeTable s.p N s.markerSize s.markerLinewidths.point s.markerLinewidths.tick).2.1 := by
    show (set_marker_size_auto s nx ny).markerLinewidths.point = _
    simp only [set_marker_size_auto]
    rw [hN]
  have htick : t.markerLinewidths.tick
      = (markerSizeTable s.p N s.markerSize s.markerLinewidths.point s.markerLinewidths.tick).2.2 := by
    show (set_marker_size_auto s nx ny).markerLinewidths.tick = _
    simp only [set_marker_size_auto]
    rw [hN]
  constructor
  · intro h10
    have h := markerSizeTable_le_ten s.p N s.markerSize s.markerLinewidths.point
      s.markerLinewidths.tick h10
    exact ⟨hsize.trans h.1, fun hp => ⟨hpoint.trans (h.2 hp).1, htick.trans (h.2 hp).2⟩⟩
  · intro h65
    have h := markerSizeTable_sixty_five s.p s.markerSize s.markerLinewidths.point
      s.markerLinewidths.tick
    rw [h65] at hsize hpoint htick
    exact ⟨fun h3 => hsize.trans (h.1 h3),
      fun hp => ⟨hsize.trans (h.2 hp).1, hpoint.trans (h.2 hp).2.1, htick.trans (h.2 hp).2.2⟩⟩

/-- Witness for C4: `N = 10` at `p = 3` gives marker size 140. -/
theorem marker_size_buckets_witness :
    (set_marker_size_auto sizeDemoState 20 10).markerSize = 140 :=
  ((marker_size_buckets sizeDemoState 20 10 (by norm_num [sizeDemoState, defaultState])
      (by norm_num [sizeDemoState, defaultState])).1
    (by norm_num [sizeDemoState, defaultState])).1

/-- C7 fails on the code: `set_phi` on a fresh 3-atic animator (densities
0.1) with a real array of shape `(1,20,5)` raises `ZeroDivisionError` in
the stride computation `nx // int(0.1*5)`, but only after `complex_field`,
`field`, `nx`, `ny` and `nt` were already reassigned: the partial update
survives the failed setter. -/
theorem set_phi_partial_mutation :
    set_phi (defaultState 3) (.array [1, 20, 5] false)
      = .error (.zeroDivisionError,
          { defaultState 3 with
              complexField := some false,
              field := some ⟨1, 20, 5, false⟩,
              nx := some 5, ny := some 20, nt := some 1 })
    ∧ (defaultState 3).field = none
    ∧ some (NpArray3.mk 1 20 5 false) ≠ (none : Option NpArray3) := by
  refine ⟨?_, rfl, by simp⟩
  unfold set_phi _check_phi
  norm_num [defaultState, pyFloorDivNat, pyInt_half]

/-- C10: an animator constructed with `field=None` has no `complex_field`
attribute, and on any such state every valid `set_grouping` argument
(`'separate'` or `'together'`) raises `AttributeError` without recording
the grouping (the state carried by the error is unchanged). -/
theorem set_grouping_missing_complex_field (p : ℕ) (g : String) (s : AnimState)
    (hp : 1 ≤ p) (hg : g = "separate" ∨ g = "together")
    (hs : s.complexField = none) :
    animInitNoField p = .ok (defaultState p)
    ∧ (defaultState p).complexField = none
    ∧ set_grouping s g = .error (.attributeError, s) := by
  refine ⟨?_, rfl, ?_⟩
  · unfold animInitNoField
    rw [if_neg (by omega)]
  · have h1 : set_grouping s ("separate") = .error (.attributeError, s) := by
      unfold set_grouping
      rw [hs]
      rfl
    have h2 : set_grouping s ("together") = .error (.attributeError, s) := by
      unfold set_grouping
      rw [hs]
      rfl
    rcases hg with hg | hg <;> subst hg <;> assumption

/-- Witness for C10: a fresh `PAticAnimator(3)` rejects
`set_grouping('separate')` with `AttributeError`. -/
theorem set_grouping_missing_complex_field_witness :
    animInitNoField 3 = .ok (defaultState 3)
    ∧ (defaultState 3).complexField = none
    ∧ set_grouping (defaultState 3) ("separate")
        = .error (.attributeError, defaultState 3) :=
  set_grouping_missing_complex_field 3 "separate" (defaultState 3)
    (by norm_num) (Or.inl rfl) rfl

/-- C2 fails as stated: on a reachable animator (real field, `which='pf'`,
`marker_type='patch'`, `pf_transparency=0.5`), `set_grouping('separate')`
succeeds but merely records the grouping — the marker type stays
`'patch'` (≠ `'all'`) and the field transparency stays 0.5 (≠ 1.0). -/
theorem set_grouping_separate_cex :
    (set_grouping cexState1 ("separate")).toOption.map
        (fun s => (s.grouping, s.markerType, s.pfTransparency))
      = some ("separate", "patch", 1/2)
    ∧ ("patch" : String) ≠ "all" ∧ (1/2 : ℚ) ≠ 1 := by
  refine ⟨?_, by decide, by norm_num⟩
  rw [cexState1_eq, demoState_eq]
  rfl

/-- C2 (amended): when the field is real and `which='both'`,
`set_grouping('separate')` always forces `marker_type='all'`, patch
transparency 0.5 and `pf_transparency=1.0`, regardless of the prior mode
and explicit settings; in every other configuration (complex field or
`which ≠ 'both'`) it only records the grouping. -/
theorem set_grouping_separate_forces :
    (∀ s : AnimState, s.complexField = some false → s.which = "both" →
      ∃ s', set_grouping s ("separate") = .ok s'
        ∧ s'.markerType = "all"
        ∧ s'.markerTransparencies.patch = 1/2
        ∧ s'.pfTransparency = 1
        ∧ s'.grouping = "separate")
    ∧ (∀ (s : AnimState) (cf : Bool), s.complexField = some cf →
        (cf = true ∨ s.which ≠ "both") →
        set_grouping s ("separate") = .ok { s with grouping := "separate" }) := by
  have hlow : pyLower ("separate") = "separate" := rfl
  constructor
  · intro s hc hw
    by_cases hgr : s.grouping = "separate" <;>
      simp [set_grouping, hlow, hc, hw, hgr]
  · intro s cf hc hcase
    rcases hcase with hcase | hcase
    · subst hcase
      simp [set_grouping, hlow, hc]
    · cases cf
      · simp [set_grouping, hlow, hc, hcase]
      · simp [set_grouping, hlow, hc]

/-- Witness for C2 (amended): with a real field, `which='both'` and prior
mode 2, switching to separate axes yields `marker_type='all'`, patch
transparency 0.5 and full field opacity. -/
theorem set_grouping_separate_forces_witness :
    ∃ s', set_grouping groupingDemoState ("separate") = .ok s'
      ∧ s'.markerType = "all"
      ∧ s'.markerTransparencies.patch = 1/2
      ∧ s'.pfTransparency = 1
      ∧ s'.grouping = "separate" :=
  set_grouping_separate_forces.1 groupingDemoState
    (by unfold groupingDemoState; rw [demoState_eq]) rfl

/-- C3 fails as stated: for `p=1` the code labels tick index 0 with
`'$-2\pi$'` and tick index 8 with `'$2\pi$'`, not `'-π'`/`'π'`. -/
theorem legend_extreme_labels_cex :
    tickLabel 1 0 = "$-2\\pi$" ∧ tickLabel 1 8 = "$2\\pi$"
    ∧ tickLabel 1 0 ≠ "$-\\pi$" ∧ tickLabel 1 8 ≠ "$\\pi$" := by
  refine ⟨rfl, rfl, by decide, by decide⟩

/-- C3 (amended): the complex-field legend has exactly 9 ticks evenly
spaced over `[min θ, max θ]`; each label is the signed multiple
`|8-2i|/(4p)` of π reduced to lowest terms, the center tick `i=4` is
`'0'`, and for `p=1` the nine labels run `-2π, -3π/2, -π, -π/2, 0, π/2, π,
3π/2, 2π` — in particular ticks 0 and 8 read `-2π` and `2π` (ticks 2 and 6
read `-π` and `π`). -/
theorem legend_ticks_and_labels (lo hi : ℚ) :
    (colorbarTicks lo hi).length = 9
    ∧ (∀ i : ℕ, i < 9 → (colorbarTicks lo hi).getD i 0 = lo + (hi - lo) * i / 8)
    ∧ (List.range 9).map (tickLabel 1)
      = ["$-2\\pi$", "$-\\frac\x7b3\\pi\x7d\x7b2\x7d$", "$-\\pi$",
         "$-\\frac\x7b\\pi\x7d\x7b2\x7d$", "$0$", "$\\frac\x7b\\pi\x7d\x7b2\x7d$",
         "$\\pi$", "$\\frac\x7b3\\pi\x7d\x7b2\x7d$", "$2\\pi$"] := by
  refine ⟨rfl, ?_, by rfl⟩
  intro i hi9
  have h := linspace_getD lo hi 9 i (by norm_num) hi9
  unfold colorbarTicks
  rw [h]
  norm_num

/-- Witness for C3 (amended): the third tick of a legend over `[-1, 1]`
sits at `-1 + 2·2/8`. -/
theorem legend_ticks_and_labels_witness :
    (colorbarTicks (-1) 1).getD 2 0 = -1 + (1 - (-1)) * (2 : ℕ) / 8 :=
  (legend_ticks_and_labels (-1) 1).2.1 2 (by norm_num)

/-- C5 fails on the code (contradicting the class's own doc string): a 2D
coordinate array whose shape equals `(ny,nx)` of the current field is NOT
used directly — `set_grid` extracts only its min/max and synthesizes a
uniform mesh, exactly as for any other shape. -/
theorem set_grid_rebuilds_uniform_mesh :
    (set_grid demoState (.arr2 nonUniformArr) ("both")).toOption.map
        (fun s => s.gridX)
      = some (some (List.replicate 20
          (linspace (listMin (coordValues (.arr2 nonUniformArr)))
                    (listMax (coordValues (.arr2 nonUniformArr))) 20)))
    ∧ List.replicate 20
        (linspace (listMin (coordValues (.arr2 nonUniformArr)))
                  (listMax (coordValues (.arr2 nonUniformArr))) 20)
      ≠ nonUniformArr := by
  have hrep : ∀ r : List ℚ, List.replicate 20 r ≠ nonUniformArr := by
    intro r h
    have e2 : List.replicate 20 r = r :: r :: List.replicate 18 r := rfl
    rw [e2] at h
    unfold nonUniformArr at h
    injection h with h1 h'
    injection h' with h2 h''
    rw [h1] at h2
    have h01 : (0 : ℚ) = 1 := congrArg (fun l => l.headD 0) h2
    norm_num at h01
  constructor
  · rw [demoState_eq]
    rfl
  · exact hrep _

/-- C6: `preview` raises without a field and without a fully defined
coordinate grid, and for an integer `frame ≥ nt` (with `nt ≥ 1`) it draws
frame index `nt - 1` without error. -/
theorem preview_clamps_and_requires_data :
    (∀ (s : AnimState) (fr : Option Int), s.field = none →
      preview s fr = .error (.exception, s))
    ∧ (∀ (s : AnimState) (f : NpArray3) (fr : Option Int), s.field = some f →
        (s.gridX = none ∨ s.gridY = none) → preview s fr = .error (.exception, s))
    ∧ (∀ (s : AnimState) (f : NpArray3) (nt : ℕ) (fr : Int),
        s.field = some f → s.nt = some nt → s.gridX ≠ none → s.gridY ≠ none →
        1 ≤ nt → (nt : Int) ≤ fr →
        preview s (some fr) = .ok (nt - 1)) := by
  refine ⟨?_, ?_, ?_⟩
  · intro s fr h
    unfold preview
    rw [h]
  · intro s f fr hf hg
    unfold preview
    rw [hf]
    simp only
    rw [if_pos hg]
  · intro s f nt fr hf hnt hgx hgy h1 hfr
    have hidx : _draw_frame_index nt ((nt : Int) - 1) = .ok (nt - 1) := by
      unfold _draw_frame_index
      rw [if_pos (by omega), if_pos (by omega)]
      congr 1
      omega
    unfold preview
    rw [hf]
    simp only
    rw [if_neg (by simp [hgx, hgy]), hnt]
    simp only
    rw [if_pos hfr, hidx]

/-- Witness for C6: the real field of shape `(5,20,20)` with `p=3` and
default options previews `frame=100` as frame index 4. -/
theorem preview_clamps_witness :
    preview demoState (some 100) = .ok 4 :=
  preview_clamps_and_requires_data.2.2 demoState ⟨5, 20, 20, false⟩ 5 100
    (by rw [demoState_eq]) (by rw [demoState_eq]) (by rw [demoState_eq]; simp)
    (by rw [demoState_eq]; simp) (by norm_num) (by norm_num)

/-- C8: with a fully defined grid, `set_marker_density(1.5)` produces
exactly the same result as `set_marker_density(1.0)` (silent clamp to 1),
`set_marker_density(-0.1)` raises a range error leaving the state
unchanged, and a density that does not coerce to a number raises a type
error. -/
theorem marker_density_clamps_and_validates (s : AnimState)
    (gx gy : List (List ℚ)) (h1 : s.gridX = some gx) (h2 : s.gridY = some gy) :
    set_marker_density s (.num (3/2)) ("both") = set_marker_density s (.num 1) ("both")
    ∧ set_marker_density s (.num (-1/10)) ("both") = .error (.valueError, s)
    ∧ set_marker_density s .notNum ("both") = .error (.typeError, s) := by
  refine ⟨?_, ?_, rfl⟩
  · unfold set_marker_density
    norm_num
  · unfold set_marker_density
    norm_num

/-- Witness for C8 on the `(5,20,20)` demo animator. -/
theorem marker_density_clamps_witness :
    set_marker_density demoState (.num (3/2)) ("both")
      = set_marker_density demoState (.num 1) ("both")
    ∧ set_marker_density demoState (.num (-1/10)) ("both")
        = .error (.valueError, demoState)
    ∧ set_marker_density demoState .notNum ("both")
        = .error (.typeError, demoState) :=
  marker_density_clamps_and_validates demoState
    (List.replicate 20 (linspace 0 1 20))
    ((linspace 0 1 20).map (fun v => List.replicate 20 v))
    (by rw [demoState_eq]) (by rw [demoState_eq])

theorem markerSizeTable_fst_stable (p : ℕ) (N : Int) (sz plw tlw plw2 tlw2 : ℚ) :
    (markerSizeTable p N (markerSizeTable p N sz plw tlw).1 plw2 tlw2).1
      = (markerSizeTable p N sz plw tlw).1 := by
  unfold markerSizeTable
  split_ifs <;> rfl

theorem resetPure_passthrough (s : AnimState) (a b : ℕ) :
    (resetPure s a b).p = s.p
    ∧ (resetPure s a b).which = s.which
    ∧ (resetPure s a b).grouping = s.grouping
    ∧ (resetPure s a b).mode = s.mode
    ∧ (resetPure s a b).pfTransparency = s.pfTransparency
    ∧ (resetPure s a b).colormap = s.colormap
    ∧ (resetPure s a b).markerDensityX = s.markerDensityX
    ∧ (resetPure s a b).markerDensityY = s.markerDensityY
    ∧ (resetPure s a b).slcX = s.slcX
    ∧ (resetPure s a b).slcY = s.slcY
    ∧ (resetPure s a b).field = s.field
    ∧ (resetPure s a b).nx = s.nx
    ∧ (resetPure s a b).ny = s.ny
    ∧ (resetPure s a b).nt = s.nt
    ∧ (resetPure s a b).x0 = s.x0
    ∧ (resetPure s a b).x1 = s.x1
    ∧ (resetPure s a b).y0 = s.y0
    ∧ (resetPure s a b).y1 = s.y1
    ∧ (resetPure s a b).gridX = s.gridX
    ∧ (resetPure s a b).gridY = s.gridY
    ∧ (resetPure s a b).complexField = s.complexField
    ∧ (resetPure s a b).ax2 = s.ax2 := by
  simp only [resetPure, set_marker_size_auto]
  split_ifs <;>
    exact ⟨rfl, rfl, rfl, rfl, rfl, rfl, rfl, rfl, rfl, rfl, rfl,
      rfl, rfl, rfl, rfl, rfl, rfl, rfl, rfl, rfl, rfl, rfl⟩

theorem resetPure_nx (s : AnimState) (a b : ℕ) : (resetPure s a b).nx = s.nx := by
  simp only [resetPure, set_marker_size_auto]
  split_ifs <;> rfl

theorem resetPure_ny (s : AnimState) (a b : ℕ) : (resetPure s a b).ny = s.ny := by
  simp only [resetPure, set_marker_size_auto]
  split_ifs <;> rfl

theorem resetPure_lw (s : AnimState) (a b : ℕ) :
    (resetPure s a b).markerLinewidths = ⟨0, 1/5, 1/2⟩ := by
  simp only [resetPure, set_marker_size_auto]
  split_ifs <;> rfl

theorem resetPure_markerType (s : AnimState) (a b : ℕ) :
    (resetPure s a b).markerType
      = if s.which = "op" ∨ (s.which = "both" ∧ s.grouping = "separate")
            ∨ (s.which = "both" ∧ s.grouping = "together" ∧ s.mode = 0) then ("all")
        else if s.which = "both" ∧ (s.mode = 1 ∨ s.mode = 2) then ("patch")
        else s.markerType := by
  simp only [resetPure, set_marker_size_auto]
  split_ifs <;> rfl

theorem resetPure_transp (s : AnimState) (a b : ℕ) :
    (resetPure s a b).markerTransparencies
      = if s.which = "op" ∨ (s.which = "both" ∧ s.grouping = "separate")
            ∨ (s.which = "both" ∧ s.grouping = "together" ∧ s.mode = 0) then
          { s.markerTransparencies with patch := 1/2 }
        else s.markerTransparencies := by
  simp only [resetPure, set_marker_size_auto]
  split_ifs <;> rfl

theorem resetPure_colors (s : AnimState) (a b : ℕ) :
    (resetPure s a b).markerColors
      = if s.which = "op" ∨ (s.which = "both" ∧ s.grouping = "separate")
            ∨ (s.which = "both" ∧ s.grouping = "together" ∧ s.mode = 0) then
          (⟨"k", "k", "r"⟩ : MarkerTriple String)
        else s.markerColors := by
  simp only [resetPure, set_marker_size_auto]
  split_ifs <;> rfl

theorem resetPure_markerSize (s : AnimState) (a b : ℕ) :
    (resetPure s a b).markerSize
      = (markerSizeTable s.p (autoN s a b) s.markerSize
          s.markerLinewidths.point s.markerLinewidths.tick).1 := by
  simp only [resetPure, set_marker_size_auto]
  split_ifs <;> rfl

theorem resetPure_idem (s : AnimState) (a b : ℕ) :
    resetPure (resetPure s a b) a b = resetPure s a b := by
  obtain ⟨g1, g2, g3, g4, g5, g6, g7, g8, g9, g10, g11, g12, g13, g14,
    g15, g16, g17, g18, g19, g20, g21, g22⟩ := resetPure_passthrough s a b
  obtain ⟨h1, h2, h3, h4, h5, h6, h7, h8, h9, h10, h11, h12, h13, h14,
    h15, h16, h17, h18, h19, h20, h21, h22⟩ :=
    resetPure_passthrough (resetPure s a b) a b
  have hN : autoN (resetPure s a b) a b = autoN s a b := by
    unfold autoN
    rw [g7, g8]
  refine AnimState.ext ?_ ?_ ?_ ?_ ?_ ?_ ?_ ?_ ?_ ?_ ?_ ?_ ?_ ?_
    ?_ ?_ ?_ ?_ ?_ ?_ ?_ ?_ ?_ ?_ ?_ ?_ ?_
  · exact h1
  · exact h2
  · exact h3
  · exact h4
  · rw [resetPure_markerType (resetPure s a b) a b, g2, g3, g4,
      resetPure_markerType s a b]
    split_ifs <;> rfl
  · rw [resetPure_markerSize (resetPure s a b) a b, hN, g1,
      resetPure_markerSize s a b]
    exact markerSizeTable_fst_stable s.p (autoN s a b) s.markerSize
      s.markerLinewidths.point s.markerLinewidths.tick _ _
  · rw [resetPure_colors (resetPure s a b) a b, g2, g3, g4,
      resetPure_colors s a b]
    split_ifs <;> rfl
  · rw [resetPure_lw (resetPure s a b) a b, resetPure_lw s a b]
  · rw [resetPure_transp (resetPure s a b) a b, g2, g3, g4,
      resetPure_transp s a b]
    split_ifs <;> rfl
  · exact h5
  · exact h6
  · exact h7
  · exact h8
  · exact h9
  · exact h10
  · exact h11
  · exact h12
  · exact h13
  · exact h14
  · exact h15
  · exact h16
  · exact h17
  · exact h18
  · exact h19
  · exact h20
  · exact h21
  · exact h22

/-- C9: `reset_marker_settings` is idempotent — whenever a call succeeds,
a second call succeeds and returns exactly the same configuration. -/
theorem reset_marker_settings_idem (s s1 : AnimState)
    (h : reset_marker_settings s = .ok s1) :
    reset_marker_settings s1 = .ok s1 := by
  unfold reset_marker_settings at h ⊢
  cases hx : s.nx with
  | none =>
    rw [hx] at h
    exact absurd h (by simp)
  | some a =>
    cases hy : s.ny with
    | none =>
      rw [hx, hy] at h
      exact absurd h (by simp)
    | some b =>
      rw [hx, hy] at h
      have h2 : resetPure s a b = s1 := by
        have h3 : Except.ok (ε := PyErr × AnimState) (resetPure s a b) = .ok s1 := h
        injection h3
      subst h2
      rw [resetPure_nx, resetPure_ny, hx, hy]
      show Except.ok (resetPure (resetPure s a b) a b) = _
      rw [resetPure_idem]

/-- Witness for C9: resetting the `(5,20,20)` demo animator twice yields
the same configuration as resetting it once. -/
theorem reset_marker_settings_idem_witness :
    reset_marker_settings resetOnce = .ok resetOnce :=
  reset_marker_settings_idem demoState resetOnce (by
    unfold reset_marker_settings resetOnce
    rw [demoState_eq])

end PAtic
